import Mathlib

/-!
# Verification of the Toronto Open Data client library

Shallow embedding of `src/api.py` (`TorontoOpenDataAPI`) and `src/core.py`
(`TorontoOpenData`), together with models of the collaborating components that
the repository declares but whose files are not part of the examined sources
(`cache.py`'s `FileCache`, `loaders.py`'s `loader_factory`, `config.py`'s
`config`).

Python exceptions are embedded as an `Except` error type; `ValueError`
messages, which the source builds with f-strings from structured data, are
embedded as constructors carrying exactly the interpolated data.  The remote
CKAN portal and the network are embedded as explicit function parameters so
that every remote behaviour can be quantified over.
-/

/-- One row of a CKAN dataset's `resources` list, as consumed by
`core.py`: a `name`, a declared `format` string, and a `url` that may be
missing (`pd.isna(url)` in the source corresponds to `none` here). -/
structure Resource where
  name : String
  format : String
  url : Option String
deriving Repr, DecidableEq

/-- A CKAN package as returned by the `package_show` action: the source only
ever reads its `resources` list (`api.py` line 75) or returns the whole
object (`get_dataset_info`). -/
structure Package where
  resources : List Resource
deriving Repr, DecidableEq

/-- The structured content of the `ValueError`s raised by `core.py`.  Each
constructor corresponds to one `raise ValueError(f'...')` site and carries
exactly the data interpolated into that f-string. -/
inductive ValueErrorMsg where
  /-- `core.py` lines 91, 118, 175: `f'Dataset {name} not found'`. -/
  | datasetNotFound (name : String)
  /-- `core.py` line 123: `f'Please specify a file name from the following
  options:\n{available_files}'`. -/
  | specifyFilename (options : List String)
  /-- `core.py` line 128: `f'File {filename} not found in dataset {name} with
  options:\n{available_files}'`. -/
  | fileNotFound (filename dataset : String) (options : List String)
  /-- `core.py` line 134: `f'File {filename} in dataset {name} does not have a
  valid url'`. -/
  | noValidUrl (filename dataset : String)
deriving Repr, DecidableEq

/-- The Python exceptions that can cross the embedded functions' boundaries.
`ckanAPIError b` stands for any exception of class `CKANAPIError` from the
external `ckanapi` library — the flag records whether it is the `NotFound`
subclass (the catalog's "dataset does not exist" signal) or one of the other
subclasses / the base class (`NotAuthorized`, `ValidationError`, a malformed
or non-success response, ...).  `requestsError` stands for a transport-level
exception (network failure), which is not a `CKANAPIError`. -/
inductive PyErr where
  | ckanAPIError (isNotFound : Bool)
  | requestsError (msg : String)
  | valueError (v : ValueErrorMsg)
  | keyError (key : String)
deriving Repr, DecidableEq

/-- The response object of the CKAN `package_search` action: a dict that may
or may not contain a `results` key (`api.py` line 57 tests `'results' in
result`). -/
structure SearchResponse where
  results : Option (List Package)
deriving Repr, DecidableEq

/-- The remote CKAN portal, embedded as the outcomes of its actions.  A call
either returns a value or raises a `PyErr`. -/
structure Remote where
  package_show : String → Except PyErr Package
  package_search : String → Except PyErr SearchResponse

/-- The value returned by `search_datasets`: the source returns either a
`pd.DataFrame` built from the rows (`as_frame=True` and a `results` key
present) or a plain Python list of rows.  The two are distinct Python
values even when both are empty. -/
inductive SearchReturn where
  | frame (rows : List Package)
  | list (rows : List Package)
deriving Repr, DecidableEq

/-- `api.py` lines 44–61, `TorontoOpenDataAPI.search_datasets`: runs
`package_search`, and if the response has a `results` key returns it (as a
DataFrame when `as_frame`), otherwise returns the plain empty list `[]`. -/
def TorontoOpenDataAPI.search_datasets (remote : Remote) (query : String)
    (as_frame : Bool) : Except PyErr SearchReturn :=
  match remote.package_search query with
  | .error e => .error e
  | .ok result =>
    match result.results with
    | some rows => if as_frame then .ok (.frame rows) else .ok (.list rows)
    | none => .ok (.list [])

/-- `api.py` lines 63–81, `TorontoOpenDataAPI.get_dataset_resources`: runs
`package_show` and extracts `['resources']`; `except CKANAPIError: return
None` catches every `CKANAPIError` (any `isNotFound` flag) and converts it to
`none`; any other exception propagates.  (The `as_frame` flag of the source
only wraps the same row list in a DataFrame and is dropped here; the pandas
consequences at the call sites are embedded there.) -/
def TorontoOpenDataAPI.get_dataset_resources (remote : Remote) (name : String) :
    Except PyErr (Option (List Resource)) :=
  match remote.package_show name with
  | .ok p => .ok (some p.resources)
  | .error (.ckanAPIError _) => .ok none
  | .error e => .error e

/-- `api.py` lines 83–96, `TorontoOpenDataAPI.get_dataset_info`: runs
`package_show` and returns the whole package; `except CKANAPIError: return
None` as in `get_dataset_resources`. -/
def TorontoOpenDataAPI.get_dataset_info (remote : Remote) (name : String) :
    Except PyErr (Option Package) :=
  match remote.package_show name with
  | .ok p => .ok (some p)
  | .error (.ckanAPIError _) => .ok none
  | .error e => .error e

/-- Modelled from the spec: `cache.py` (the `FileCache` referenced by
`core.py` lines 11/16 and 38) is not among the examined sources.  Per spec
§4.2 the cache is "a local directory of downloaded resource bytes, keyed by
(dataset name, resource name)" under a configurable root; existence of an
entry is the only tracked state.  `entries` is the set of (dataset, resource)
pairs whose file currently exists on disk. -/
structure FileCache where
  root : String
  entries : List (String × String)
deriving Repr, DecidableEq

/-- Modelled from the spec (§4.2): "the mapping from (dataset, resource) to
path is pure and deterministic": one subdirectory per dataset name under the
root, one file per resource name inside it. -/
def cache_path (root dataset resource : String) : String :=
  root ++ "/" ++ dataset ++ "/" ++ resource

/-- Modelled from the spec (§4.2): `file_exists` is a "pure filesystem
presence check at the deterministic path". -/
def FileCache.file_exists (c : FileCache) (dataset resource : String) : Bool :=
  c.entries.contains (dataset, resource)

/-- The network, embedded as the outcome of streaming each URL: `.ok ()` for
a successful transfer, `.error msg` for a transport failure (which `cache.py`
would surface as a requests-level exception, not a `CKANAPIError`). -/
def Net : Type := String → Except String Unit

/-- The outcome of one `download_file` call: the returned path (or the
exception it raises), the cache state afterwards, and the list of URLs for
which a network transfer was attempted during the call. -/
structure DownloadOutcome where
  path : Except PyErr String
  cache : FileCache
  transfers : List String
deriving Repr

/-- Modelled from the spec: `cache.py`'s `download_file` is not among the
examined sources.  Per spec §4.2: "If the target path already exists and
`force` is false, returns the existing path without any network activity ...
Otherwise streams the resource from `url` to the deterministic path ... and
returns the path.  A download failure is fatal and surfaces to the caller."
Per §3 a cache entry's presence implies a prior successful download, so a
failed transfer leaves the entry set unchanged. -/
def FileCache.download_file (c : FileCache) (net : Net)
    (dataset resource url : String) (force : Bool) : DownloadOutcome :=
  if c.file_exists dataset resource && !force then
    { path := .ok (cache_path c.root dataset resource), cache := c, transfers := [] }
  else
    match net url with
    | .ok _ =>
      { path := .ok (cache_path c.root dataset resource),
        cache := { c with entries := (dataset, resource) :: c.entries },
        transfers := [url] }
    | .error m =>
      { path := .error (.requestsError m), cache := c, transfers := [url] }

/-- The outcome of a batch `download_dataset` call: the returned name list
(or the exception), the cache state afterwards, and the attempted
transfers. -/
structure BatchOutcome where
  result : Except PyErr (List String)
  cache : FileCache
  transfers : List String
deriving Repr

/-- Modelled from the spec: `cache.py`'s `download_dataset` is not among the
examined sources.  Per spec §4.2: "Iterates the given resource list and
applies `download_file` to each entry that has a valid URL; entries without a
URL are silently skipped (not an error, not reported in the returned list).
Order of the returned list matches input order; each entry represents one
successful download."  Per §4.2's failure semantics, one resource's failure
is fatal to the whole batch. -/
def FileCache.download_dataset (c : FileCache) (net : Net) (dataset : String)
    (resources : List Resource) (force : Bool) : BatchOutcome :=
  match resources with
  | [] => { result := .ok [], cache := c, transfers := [] }
  | r :: rest =>
    match r.url with
    | none => c.download_dataset net dataset rest force
    | some u =>
      let d := c.download_file net dataset r.name u force
      match d.path with
      | .error e => { result := .error e, cache := d.cache, transfers := d.transfers }
      | .ok _ =>
        let b := d.cache.download_dataset net dataset rest force
        match b.result with
        | .error e => { result := .error e, cache := b.cache,
                        transfers := d.transfers ++ b.transfers }
        | .ok names => { result := .ok (r.name :: names), cache := b.cache,
                         transfers := d.transfers ++ b.transfers }

/-- Python's `str.lower()` as applied by the source to format strings
(`core.py` line 137): characterwise lowercasing.  (Defined charwise rather
than through `String.toLower` so that it evaluates inside the kernel;
the two agree, both mapping `Char.toLower` over the characters.) -/
def pyLower (s : String) : String := ⟨s.data.map Char.toLower⟩

/-- Modelled from the spec: `config.py` (the `config` imported by `core.py`
line 13) is not among the examined sources.  Per spec §6 the configuration
supplies "a set of format strings eligible for smart in-memory return"
(`config.SMART_RETURN_FILETYPES`, used at `core.py` line 143); per §4.3 the
set is fixed and matched against lowercased format strings. -/
structure Config where
  SMART_RETURN_FILETYPES : List String
deriving Repr, DecidableEq

/-- The value returned by `TorontoOpenData.load`: either the local file path
(`core.py` line 146) or the object produced by
`loader_factory.load_file(file_path, file_type)` (`core.py` line 144).
Modelled from the spec for the latter: `loaders.py` is not among the
examined sources; per spec §4.3 `load_file(path, format)` deserializes the
file at `path` according to `format`, so the loaded object is represented by
the pair of arguments that determine it. -/
inductive LoadResult where
  | path (p : String)
  | loaded (p : String) (fmt : String)
deriving Repr, DecidableEq

/-- One invocation of `FileCache.download_file`, recorded with the arguments
the facade passed to it (`core.py` line 140). -/
structure DownloadCall where
  dataset : String
  resource : String
  url : String
  force : Bool
deriving Repr, DecidableEq

/-- The outcome of one `TorontoOpenData.load` call: the returned value (or
the exception raised), the cache state afterwards, the attempted network
transfers, and the `download_file` invocations made on the cache. -/
structure LoadOutcome where
  result : Except PyErr LoadResult
  cache : FileCache
  transfers : List String
  downloadCalls : List DownloadCall
deriving Repr

/-- `core.py` lines 95–146, `TorontoOpenData.load`.  Line-by-line:
lines 116–118 resolve the resources (`as_frame=True`) and raise
`datasetNotFound` on `None`; with an empty resource list the DataFrame has no
columns, so the source's `dataset['name']` (lines 122/126) raises
`KeyError('name')`; lines 121–123 raise `specifyFilename` listing
`dataset['name'].values` when `filename` is `None`; lines 126–128 raise
`fileNotFound` with the same list when no row's name equals `filename`
(`filename not in dataset['name'].values`); line 131's
`dataset[dataset['name'] == filename].iloc[0]` is the first matching row,
embedded as `List.find?`; lines 132–134 raise `noValidUrl` when that row's
url is NaN; line 137 lowercases the format; line 140 calls
`cache.download_file`; lines 143–146 return the loaded object when
`smart_return and file_type in config.SMART_RETURN_FILETYPES`, else the
path. -/
def TorontoOpenData.load (cfg : Config) (remote : Remote) (net : Net)
    (cache : FileCache) (name : String) (filename : Option String)
    (reload smart_return : Bool) : LoadOutcome :=
  match TorontoOpenDataAPI.get_dataset_resources remote name with
  | .error e =>
    { result := .error e, cache := cache, transfers := [], downloadCalls := [] }
  | .ok none =>
    { result := .error (.valueError (.datasetNotFound name)), cache := cache,
      transfers := [], downloadCalls := [] }
  | .ok (some resources) =>
    if resources.isEmpty then
      { result := .error (.keyError "name"), cache := cache,
        transfers := [], downloadCalls := [] }
    else
      let available := resources.map (fun r => r.name)
      match filename with
      | none =>
        { result := .error (.valueError (.specifyFilename available)),
          cache := cache, transfers := [], downloadCalls := [] }
      | some f =>
        match resources.find? (fun r => r.name == f) with
        | none =>
          { result := .error (.valueError (.fileNotFound f name available)),
            cache := cache, transfers := [], downloadCalls := [] }
        | some file_info =>
          match file_info.url with
          | none =>
            { result := .error (.valueError (.noValidUrl f name)),
              cache := cache, transfers := [], downloadCalls := [] }
          | some url =>
            let file_type := pyLower file_info.format
            let d := cache.download_file net name f url reload
            let call : DownloadCall :=
              { dataset := name, resource := f, url := url, force := reload }
            match d.path with
            | .error e =>
              { result := .error e, cache := d.cache, transfers := d.transfers,
                downloadCalls := [call] }
            | .ok p =>
              if smart_return && cfg.SMART_RETURN_FILETYPES.contains file_type then
                { result := .ok (.loaded p file_type), cache := d.cache,
                  transfers := d.transfers, downloadCalls := [call] }
              else
                { result := .ok (.path p), cache := d.cache,
                  transfers := d.transfers, downloadCalls := [call] }

/-- `core.py` lines 78–93, `TorontoOpenData.download_dataset`: resolves the
resources (`as_frame=False`), raises `datasetNotFound` on `None`, else
delegates to `cache.download_dataset`. -/
def TorontoOpenData.download_dataset (remote : Remote) (net : Net)
    (cache : FileCache) (name : String) (overwrite : Bool) : BatchOutcome :=
  match TorontoOpenDataAPI.get_dataset_resources remote name with
  | .error e => { result := .error e, cache := cache, transfers := [] }
  | .ok none =>
    { result := .error (.valueError (.datasetNotFound name)), cache := cache,
      transfers := [] }
  | .ok (some resources) => cache.download_dataset net name resources overwrite

/-- `core.py` lines 160–177, `TorontoOpenData.get_available_files`: resolves
the resources (`as_frame=True`), raises `datasetNotFound` on `None`, else
returns `dataset['name'].values.tolist()` — which, as in `load`, raises
`KeyError('name')` when the resource list is empty. -/
def TorontoOpenData.get_available_files (remote : Remote) (name : String) :
    Except PyErr (List String) :=
  match TorontoOpenDataAPI.get_dataset_resources remote name with
  | .error e => .error e
  | .ok none => .error (.valueError (.datasetNotFound name))
  | .ok (some resources) =>
    if resources.isEmpty then .error (.keyError "name")
    else .ok (resources.map (fun r => r.name))

/-- The list of alternative names carried inside an exception's message: both
`specifyFilename` and `fileNotFound` interpolate `dataset['name'].values`
into their f-string; every other exception carries no such list. -/
def PyErr.optionsListed : PyErr → List String
  | .valueError (.specifyFilename opts) => opts
  | .valueError (.fileNotFound _ _ opts) => opts
  | _ => []

deriving instance DecidableEq for Except

/-- If the requested name occurs in no row, the first-matching-row lookup
comes up empty (`filename not in dataset['name'].values` and the
`dataset[dataset['name'] == filename]` filter agree). -/
theorem find_name_eq_none {l : List Resource} {f : String}
    (h : f ∉ l.map (fun r => r.name)) :
    l.find? (fun r => r.name == f) = none := by
  rw [List.find?_eq_none]
  intro r hr hbeq
  exact h (List.mem_map.mpr ⟨r, hr, eq_of_beq hbeq⟩)

/-- The path returned by `download_file` never carries a `ValueError`: on the
cache hit it is a success, and on a fetch it is either a success or the
transport failure. -/
theorem download_file_path_not_valueError (c : FileCache) (net : Net)
    (dataset resource url : String) (force : Bool) (v : ValueErrorMsg) :
    (c.download_file net dataset resource url force).path
      ≠ .error (.valueError v) := by
  unfold FileCache.download_file
  split
  · simp
  · cases h : net url <;> simp

/-! ## Concrete instances used by counterexamples and witnesses -/

/-- A remote whose `package_show` always raises a `CKANAPIError` that is not
the `NotFound` subclass (for instance `NotAuthorized` on a private dataset,
or the base `CKANAPIError` on a malformed response). -/
def otherAPIErrorRemote : Remote :=
  { package_show := fun _ => .error (.ckanAPIError false),
    package_search := fun _ => .ok { results := none } }

/-- A remote whose `package_show` always raises `NotFound` and whose
`package_search` responses carry no `results` key. -/
def notFoundRemote : Remote :=
  { package_show := fun _ => .error (.ckanAPIError true),
    package_search := fun _ => .ok { results := none } }

/-- A remote that is unreachable: every action raises a transport-level
(requests) exception. -/
def netFailRemote : Remote :=
  { package_show := fun _ => .error (.requestsError "connection refused"),
    package_search := fun _ => .error (.requestsError "connection refused") }

/-- The resource list of the spec's §8 scenario dataset `"budget"`, with an
uppercase declared format on the csv row to exercise the lowercasing. -/
def budgetResources : List Resource :=
  [{ name := "2023.csv", format := "CSV", url := some "http://x/2023.csv" },
   { name := "2023.pdf", format := "pdf", url := none }]

/-- A remote that knows exactly the dataset `"budget"`. -/
def budgetRemote : Remote :=
  { package_show := fun n =>
      if n == "budget" then .ok { resources := budgetResources }
      else .error (.ckanAPIError true),
    package_search := fun _ => .ok { results := some [] } }

/-- A network on which every transfer succeeds. -/
def okNet : Net := fun _ => .ok ()

/-- An empty local cache. -/
def emptyCache : FileCache := { root := "cache", entries := [] }

/-- A smart-return configuration recognizing the usual tabular formats. -/
def smartConfig : Config := { SMART_RETURN_FILETYPES := ["csv", "json", "xlsx"] }

/-! ## Claims -/

/-- C1, counterexample: the claim says a non-not-found API error propagates
to the caller unchanged, but `get_dataset_resources` and `get_dataset_info`
catch the whole `CKANAPIError` class — of which `NotFound` is only one
subclass — so a remote that raises a non-not-found `CKANAPIError` is also
converted to the absent value instead of propagating. -/
theorem get_dataset_resources_swallows_other_api_errors :
    otherAPIErrorRemote.package_show "water-data"
      = Except.error (PyErr.ckanAPIError false)
    ∧ TorontoOpenDataAPI.get_dataset_resources otherAPIErrorRemote "water-data"
      = Except.ok none
    ∧ TorontoOpenDataAPI.get_dataset_info otherAPIErrorRemote "water-data"
      = Except.ok none
    ∧ TorontoOpenDataAPI.get_dataset_resources otherAPIErrorRemote "water-data"
      ≠ Except.error (PyErr.ckanAPIError false) :=
  ⟨rfl, rfl, rfl, fun h => Except.noConfusion h⟩

/-- C1, amended: `get_dataset_resources` and `get_dataset_info` return the
absent value exactly when the remote raises a `CKANAPIError` of any kind
(not-found or any other API-level error), while faults that are not
`CKANAPIError`s (network/transport failures) propagate to the caller
unchanged. -/
theorem get_dataset_resources_none_iff_ckan_api_error (remote : Remote) (name : String) :
    (TorontoOpenDataAPI.get_dataset_resources remote name = .ok none
      ↔ ∃ b, remote.package_show name = .error (.ckanAPIError b))
    ∧ (TorontoOpenDataAPI.get_dataset_info remote name = .ok none
      ↔ ∃ b, remote.package_show name = .error (.ckanAPIError b))
    ∧ ∀ m, remote.package_show name = .error (.requestsError m) →
        TorontoOpenDataAPI.get_dataset_resources remote name
          = .error (.requestsError m)
        ∧ TorontoOpenDataAPI.get_dataset_info remote name
          = .error (.requestsError m) := by
  unfold TorontoOpenDataAPI.get_dataset_resources TorontoOpenDataAPI.get_dataset_info
  cases h : remote.package_show name with
  | ok p => simp [h]
  | error e => cases e <;> simp [h]

/-- Witness for C1's amended theorem at a concrete unreachable remote. -/
theorem get_dataset_resources_none_iff_ckan_api_error_witness :
    TorontoOpenDataAPI.get_dataset_resources netFailRemote "budget"
      = Except.error (PyErr.requestsError "connection refused") :=
  ((get_dataset_resources_none_iff_ckan_api_error netFailRemote "budget").2.2
    "connection refused" rfl).1

/-- C2: when the catalog client returns the absent value for a dataset name,
each facade operation that needs the resource list — `load`,
`download_dataset` and `get_available_files` — raises the `datasetNotFound`
`ValueError` (so none of them returns an empty result). -/
theorem facade_not_found_on_absent_dataset (cfg : Config) (remote : Remote)
    (net : Net) (cache : FileCache) (name : String)
    (h : TorontoOpenDataAPI.get_dataset_resources remote name = .ok none) :
    (∀ filename reload smart,
      (TorontoOpenData.load cfg remote net cache name filename reload smart).result
        = .error (.valueError (.datasetNotFound name)))
    ∧ (∀ overwrite,
      (TorontoOpenData.download_dataset remote net cache name overwrite).result
        = .error (.valueError (.datasetNotFound name)))
    ∧ TorontoOpenData.get_available_files remote name
        = .error (.valueError (.datasetNotFound name)) := by
  refine ⟨fun filename reload smart => ?_, fun overwrite => ?_, ?_⟩ <;>
    simp [TorontoOpenData.load, TorontoOpenData.download_dataset,
          TorontoOpenData.get_available_files, h]

/-- Witness for C2 at the spec's §8 scenario `get_available_files("nonexistent")`. -/
theorem facade_not_found_on_absent_dataset_witness :
    (TorontoOpenData.load smartConfig notFoundRemote okNet emptyCache
        "nonexistent" (some "a.csv") false true).result
      = Except.error (PyErr.valueError (.datasetNotFound "nonexistent"))
    ∧ TorontoOpenData.get_available_files notFoundRemote "nonexistent"
      = Except.error (PyErr.valueError (.datasetNotFound "nonexistent")) :=
  ⟨(facade_not_found_on_absent_dataset smartConfig notFoundRemote okNet emptyCache
      "nonexistent" rfl).1 (some "a.csv") false true,
   (facade_not_found_on_absent_dataset smartConfig notFoundRemote okNet emptyCache
      "nonexistent" rfl).2.2⟩

/-- C10: when the `package_search` response carries no `results` key,
`search_datasets` returns the plain empty list for every value of the
`as_frame` flag — and that value is not the empty DataFrame. -/
theorem search_datasets_no_results_plain_empty_list (remote : Remote)
    (query : String) (as_frame : Bool) (resp : SearchResponse)
    (hresp : remote.package_search query = .ok resp)
    (hnone : resp.results = none) :
    TorontoOpenDataAPI.search_datasets remote query as_frame
      = .ok (SearchReturn.list [])
    ∧ SearchReturn.list ([] : List Package) ≠ SearchReturn.frame [] := by
  refine ⟨?_, fun h => SearchReturn.noConfusion h⟩
  simp [TorontoOpenDataAPI.search_datasets, hresp, hnone]

/-- Witness for C10 at a concrete remote whose search response has no
`results` key, with `as_frame = true`. -/
theorem search_datasets_no_results_plain_empty_list_witness :
    TorontoOpenDataAPI.search_datasets notFoundRemote "parks" true
      = .ok (SearchReturn.list []) :=
  (search_datasets_no_results_plain_empty_list notFoundRemote "parks" true
    { results := none } rfl rfl).1

/-- C3: when the resource matched by `load` has a null/absent URL, `load`
raises the `noValidUrl` `ValueError` — a constructor distinct from both
not-found errors — makes no `download_file` call, and leaves the cache
untouched. -/
theorem load_missing_url_no_download (cfg : Config) (remote : Remote)
    (net : Net) (cache : FileCache) (name f : String) (reload smart : Bool)
    (resources : List Resource) (fi : Resource)
    (hres : TorontoOpenDataAPI.get_dataset_resources remote name
      = .ok (some resources))
    (hfind : resources.find? (fun r => r.name == f) = some fi)
    (hurl : fi.url = none) :
    (TorontoOpenData.load cfg remote net cache name (some f) reload smart).result
      = .error (.valueError (.noValidUrl f name))
    ∧ (TorontoOpenData.load cfg remote net cache name (some f) reload smart).downloadCalls
      = []
    ∧ (TorontoOpenData.load cfg remote net cache name (some f) reload smart).cache
      = cache
    ∧ (∀ n, ValueErrorMsg.noValidUrl f name ≠ ValueErrorMsg.datasetNotFound n)
    ∧ (∀ fn ds opts,
        ValueErrorMsg.noValidUrl f name ≠ ValueErrorMsg.fileNotFound fn ds opts) := by
  have hne : resources.isEmpty = false := by
    cases resources with
    | nil => simp at hfind
    | cons a l => rfl
  refine ⟨?_, ?_, ?_, fun n h => ValueErrorMsg.noConfusion h,
    fun fn ds opts h => ValueErrorMsg.noConfusion h⟩ <;>
    simp [TorontoOpenData.load, hres, hne, hfind, hurl]

/-- Witness for C3 at the spec's §8 scenario `load("budget", "2023.pdf")`. -/
theorem load_missing_url_no_download_witness :
    (TorontoOpenData.load smartConfig budgetRemote okNet emptyCache "budget"
        (some "2023.pdf") false true).result
      = .error (.valueError (.noValidUrl "2023.pdf" "budget"))
    ∧ (TorontoOpenData.load smartConfig budgetRemote okNet emptyCache "budget"
        (some "2023.pdf") false true).downloadCalls = [] :=
  ⟨(load_missing_url_no_download smartConfig budgetRemote okNet emptyCache
      "budget" "2023.pdf" false true budgetResources
      { name := "2023.pdf", format := "pdf", url := none } rfl rfl rfl).1,
   (load_missing_url_no_download smartConfig budgetRemote okNet emptyCache
      "budget" "2023.pdf" false true budgetResources
      { name := "2023.pdf", format := "pdf", url := none } rfl rfl rfl).2.1⟩

/-- C5: on an existing dataset, a `load` call whose filename is omitted or
matches no resource raises an exception that carries the full list of the
dataset's resource names in its message (vacuously so for the empty resource
list, where the source's `dataset['name']` raises `KeyError` instead). -/
theorem load_error_lists_available_names (cfg : Config) (remote : Remote)
    (net : Net) (cache : FileCache) (name : String) (resources : List Resource)
    (fno : Option String) (reload smart : Bool)
    (hres : TorontoOpenDataAPI.get_dataset_resources remote name
      = .ok (some resources))
    (hmiss : ∀ f, fno = some f → f ∉ resources.map (fun r => r.name)) :
    ∃ e, (TorontoOpenData.load cfg remote net cache name fno reload smart).result
        = .error e
      ∧ ∀ n ∈ resources.map (fun r => r.name), n ∈ e.optionsListed := by
  cases resources with
  | nil =>
    exact ⟨.keyError "name", by simp [TorontoOpenData.load, hres], by simp⟩
  | cons a l =>
    cases fno with
    | none =>
      refine ⟨.valueError (.specifyFilename ((a :: l).map (fun r => r.name))),
        by simp [TorontoOpenData.load, hres], fun n hn => ?_⟩
      simpa [PyErr.optionsListed] using hn
    | some f =>
      have hfind : (a :: l).find? (fun r => r.name == f) = none :=
        find_name_eq_none (hmiss f rfl)
      refine ⟨.valueError (.fileNotFound f name ((a :: l).map (fun r => r.name))),
        by simp [TorontoOpenData.load, hres, hfind], fun n hn => ?_⟩
      simpa [PyErr.optionsListed] using hn

/-- Witness for C5 at the spec's §8 scenario `load("budget", "missing.csv")`:
the raised error lists `["2023.csv", "2023.pdf"]`. -/
theorem load_error_lists_available_names_witness :
    ∃ e, (TorontoOpenData.load smartConfig budgetRemote okNet emptyCache
        "budget" (some "missing.csv") false true).result = .error e
      ∧ ∀ n ∈ budgetResources.map (fun r => r.name), n ∈ e.optionsListed :=
  load_error_lists_available_names smartConfig budgetRemote okNet emptyCache
    "budget" budgetResources (some "missing.csv") false true rfl
    (fun f h => by cases h; decide)

/-- C8: whenever `load` raises a `ValueError` (dataset not found, filename
omitted, filename matching no resource, or missing URL), it has made no
`download_file` call, attempted no transfer, and left the cache exactly as it
was. -/
theorem load_validation_error_no_cache_effect (cfg : Config) (remote : Remote)
    (net : Net) (cache : FileCache) (name : String) (fno : Option String)
    (reload smart : Bool) (v : ValueErrorMsg)
    (h : (TorontoOpenData.load cfg remote net cache name fno reload smart).result
      = .error (.valueError v)) :
    (TorontoOpenData.load cfg remote net cache name fno reload smart).downloadCalls
      = []
    ∧ (TorontoOpenData.load cfg remote net cache name fno reload smart).cache
      = cache
    ∧ (TorontoOpenData.load cfg remote net cache name fno reload smart).transfers
      = [] := by
  cases hres : TorontoOpenDataAPI.get_dataset_resources remote name with
  | error e => simp [TorontoOpenData.load, hres]
  | ok o =>
    cases o with
    | none => simp [TorontoOpenData.load, hres]
    | some resources =>
      cases resources with
      | nil => simp [TorontoOpenData.load, hres]
      | cons a l =>
        cases fno with
        | none => simp [TorontoOpenData.load, hres]
        | some f =>
          cases hfind : (a :: l).find? (fun r => r.name == f) with
          | none => simp [TorontoOpenData.load, hres, hfind]
          | some fi =>
            cases hurl : fi.url with
            | none => simp [TorontoOpenData.load, hres, hfind, hurl]
            | some u =>
              exfalso
              cases hd : (FileCache.download_file cache net name f u reload).path with
              | error e' =>
                simp only [TorontoOpenData.load, hres, hfind, hurl, hd] at h
                exact download_file_path_not_valueError cache net name f u reload v
                  (hd.trans (by simpa using h))
              | ok p =>
                simp only [TorontoOpenData.load, hres, hfind, hurl, hd,
                  List.isEmpty_cons, Bool.false_eq_true, if_false] at h
                split at h <;> simp at h

/-- Witness for C8 at a concrete failing call: `load("budget", "2023.pdf")`
raises `noValidUrl` and leaves the empty cache empty. -/
theorem load_validation_error_no_cache_effect_witness :
    (TorontoOpenData.load smartConfig budgetRemote okNet emptyCache "budget"
        (some "2023.pdf") false true).downloadCalls = []
    ∧ (TorontoOpenData.load smartConfig budgetRemote okNet emptyCache "budget"
        (some "2023.pdf") false true).cache = emptyCache
    ∧ (TorontoOpenData.load smartConfig budgetRemote okNet emptyCache "budget"
        (some "2023.pdf") false true).transfers = [] :=
  load_validation_error_no_cache_effect smartConfig budgetRemote okNet
    emptyCache "budget" (some "2023.pdf") false true
    (.noValidUrl "2023.pdf" "budget") rfl

/-- C4: a successful `load` returns the deserialized object exactly when
`smart_return` was requested and the matched resource's declared format is —
case-insensitively — one of the configured smart-return formats; in every
other case it returns the local path.  The configured formats are lowercase
strings (the source compares `format.lower()` against them by membership). -/
theorem load_smart_return_iff_recognized_format (cfg : Config) (remote : Remote)
    (net : Net) (cache : FileCache) (name f : String) (reload smart : Bool)
    (resources : List Resource) (fi : Resource) (r : LoadResult)
    (hlower : ∀ s ∈ cfg.SMART_RETURN_FILETYPES, pyLower s = s)
    (hres : TorontoOpenDataAPI.get_dataset_resources remote name
      = .ok (some resources))
    (hfind : resources.find? (fun x => x.name == f) = some fi)
    (hok : (TorontoOpenData.load cfg remote net cache name (some f) reload smart).result
      = .ok r) :
    (∃ q ft, r = .loaded q ft)
      ↔ smart = true
        ∧ ∃ s ∈ cfg.SMART_RETURN_FILETYPES, pyLower fi.format = pyLower s := by
  have hne : resources.isEmpty = false := by
    cases resources with
    | nil => simp at hfind
    | cons a l => rfl
  cases hurl : fi.url with
  | none => simp [TorontoOpenData.load, hres, hne, hfind, hurl] at hok
  | some u =>
    cases hd : (FileCache.download_file cache net name f u reload).path with
    | error e =>
      simp [TorontoOpenData.load, hres, hne, hfind, hurl, hd] at hok
    | ok p =>
      simp only [TorontoOpenData.load, hres, hne, hfind, hurl, hd,
        Bool.false_eq_true, if_false] at hok
      split at hok
      case isTrue hc =>
        have hmem : pyLower fi.format ∈ cfg.SMART_RETURN_FILETYPES :=
          List.elem_iff.mp (Bool.and_elim_right hc)
        have hr : r = .loaded p (pyLower fi.format) := by
          injection hok with hok'; exact hok'.symm
        subst hr
        constructor
        · intro _
          exact ⟨Bool.and_elim_left hc, pyLower fi.format, hmem,
            (hlower _ hmem).symm⟩
        · intro _
          exact ⟨p, pyLower fi.format, rfl⟩
      case isFalse hc =>
        have hr : r = .path p := by
          injection hok with hok'; exact hok'.symm
        subst hr
        constructor
        · rintro ⟨q, ft, hqt⟩
          exact LoadResult.noConfusion hqt
        · rintro ⟨hs, s, hsmem, hseq⟩
          refine absurd ?_ hc
          have hmem : pyLower fi.format ∈ cfg.SMART_RETURN_FILETYPES := by
            rw [hseq, hlower s hsmem]; exact hsmem
          simp only [hs, Bool.true_and]
          exact List.elem_iff.mpr hmem

/-- Witness for C4 at the spec's §8 scenario
`load("budget", "2023.csv", smart_return=True)`: the declared format `"CSV"`
matches `"csv"` case-insensitively and the loaded object is returned. -/
theorem load_smart_return_iff_recognized_format_witness :
    ∃ q ft, (LoadResult.loaded (cache_path "cache" "budget" "2023.csv") "csv")
      = LoadResult.loaded q ft :=
  (load_smart_return_iff_recognized_format smartConfig budgetRemote okNet
    emptyCache "budget" "2023.csv" false true budgetResources
    { name := "2023.csv", format := "CSV", url := some "http://x/2023.csv" }
    (.loaded (cache_path "cache" "budget" "2023.csv") "csv")
    (by decide) rfl rfl (by decide)).mpr
    (by exact ⟨rfl, "csv", by decide, by decide⟩)

/-- The first-matching-row lookup on a list that starts with non-matching
rows, then the row `fi` with the requested name, finds `fi` — whatever rows
follow it. -/
theorem find_name_first {pre post : List Resource} {fi : Resource} {f : String}
    (hpre : ∀ r ∈ pre, r.name ≠ f) (hname : fi.name = f) :
    (pre ++ fi :: post).find? (fun r => r.name == f) = some fi := by
  induction pre with
  | nil => simp [List.find?_cons, hname]
  | cons a l ih =>
    have ha : (a.name == f) = false := by
      simpa using hpre a (List.mem_cons_self a l)
    simp only [List.cons_append, List.find?_cons, ha]
    exact ih fun r hr => hpre r (List.mem_cons_of_mem a hr)

/-- C9: when the resource list holds several rows with the requested name,
`load` uses the first one in list order: the single `download_file` call it
makes carries that row's URL, and a smart-returned object's format is that
row's (lowercased) format — the later duplicates are ignored. -/
theorem load_uses_first_matching_resource (cfg : Config) (remote : Remote)
    (net : Net) (cache : FileCache) (name f : String) (reload smart : Bool)
    (pre post : List Resource) (fi : Resource) (u : String)
    (hres : TorontoOpenDataAPI.get_dataset_resources remote name
      = .ok (some (pre ++ fi :: post)))
    (hpre : ∀ r ∈ pre, r.name ≠ f)
    (hname : fi.name = f)
    (hurl : fi.url = some u) :
    (TorontoOpenData.load cfg remote net cache name (some f) reload smart).downloadCalls
      = [{ dataset := name, resource := f, url := u, force := reload }]
    ∧ ∀ q ft,
        (TorontoOpenData.load cfg remote net cache name (some f) reload smart).result
          = .ok (.loaded q ft) → ft = pyLower fi.format := by
  have hfind : (pre ++ fi :: post).find? (fun r => r.name == f) = some fi :=
    find_name_first hpre hname
  have hne : (pre ++ fi :: post).isEmpty = false := by
    cases pre <;> rfl
  constructor
  · simp only [TorontoOpenData.load, hres, hfind, hurl, hne,
      Bool.false_eq_true, if_false]
    cases hd : (FileCache.download_file cache net name f u reload).path with
    | error e => simp [hd]
    | ok p => simp only [hd]; split <;> rfl
  · intro q ft h
    simp only [TorontoOpenData.load, hres, hfind, hurl, hne,
      Bool.false_eq_true, if_false] at h
    cases hd : (FileCache.download_file cache net name f u reload).path with
    | error e => rw [hd] at h; exact absurd h (by simp)
    | ok p =>
      rw [hd] at h
      split at h
      · simp at h
      · split at h
        · injection h with h'
          injection h' with h1 h2
          exact h2.symm
        · simp at h

/-- A dataset with two resources sharing one name but different URLs and
formats, to exercise the first-match rule. -/
def dupResources : List Resource :=
  [{ name := "a.csv", format := "CSV", url := some "http://x/first.csv" },
   { name := "a.csv", format := "XLSX", url := some "http://x/second.xlsx" }]

/-- A remote that knows exactly the dataset `"dup"`. -/
def dupRemote : Remote :=
  { package_show := fun n =>
      if n == "dup" then .ok { resources := dupResources }
      else .error (.ckanAPIError true),
    package_search := fun _ => .ok { results := none } }

/-- Witness for C9: with two resources named `"a.csv"`, `load` downloads the
first one's URL. -/
theorem load_uses_first_matching_resource_witness :
    (TorontoOpenData.load smartConfig dupRemote okNet emptyCache "dup"
        (some "a.csv") false true).downloadCalls
      = [{ dataset := "dup", resource := "a.csv", url := "http://x/first.csv",
           force := false }] :=
  (load_uses_first_matching_resource smartConfig dupRemote okNet emptyCache
    "dup" "a.csv" false true []
    [{ name := "a.csv", format := "XLSX", url := some "http://x/second.xlsx" }]
    { name := "a.csv", format := "CSV", url := some "http://x/first.csv" }
    "http://x/first.csv" rfl (by simp) rfl rfl).1

/-- C7: `download_file` attempts a network transfer exactly when `force` is
set or no cache entry exists at the deterministic path; with `force` unset
and the entry present it returns the existing path unchanged with no
transfer, and with `force` set it always attempts a transfer. -/
theorem download_file_transfers_iff_force_or_absent (c : FileCache) (net : Net)
    (dataset resource url : String) (force : Bool) :
    ((c.download_file net dataset resource url force).transfers
      = if force = true ∨ c.file_exists dataset resource = false then [url] else [])
    ∧ (force = false → c.file_exists dataset resource = true →
        c.download_file net dataset resource url force
          = { path := .ok (cache_path c.root dataset resource), cache := c,
              transfers := [] })
    ∧ (force = true →
        (c.download_file net dataset resource url force).transfers = [url]) := by
  cases force with
  | false =>
    cases hex : c.file_exists dataset resource with
    | true => simp [FileCache.download_file, hex]
    | false =>
      cases h : net url <;> simp [FileCache.download_file, hex, h]
  | true =>
    cases hex : c.file_exists dataset resource <;>
      cases h : net url <;> simp [FileCache.download_file, hex, h]

/-- A cache that already holds the budget csv entry. -/
def cachedCache : FileCache :=
  { root := "cache", entries := [("budget", "2023.csv")] }

/-- Witness for C7: on the pre-populated cache, `force=false` returns the
existing path with no transfer and `force=true` still transfers. -/
theorem download_file_transfers_iff_force_or_absent_witness :
    FileCache.download_file cachedCache okNet "budget" "2023.csv"
        "http://x/2023.csv" false
      = { path := .ok (cache_path "cache" "budget" "2023.csv"),
          cache := cachedCache, transfers := [] }
    ∧ (FileCache.download_file cachedCache okNet "budget" "2023.csv"
        "http://x/2023.csv" true).transfers = ["http://x/2023.csv"] :=
  ⟨(download_file_transfers_iff_force_or_absent cachedCache okNet "budget"
      "2023.csv" "http://x/2023.csv" false).2.1 rfl (by decide),
   (download_file_transfers_iff_force_or_absent cachedCache okNet "budget"
      "2023.csv" "http://x/2023.csv" true).2.2 rfl⟩

/-- C6: on a dataset the catalog resolves, `download_dataset` (with every
transfer succeeding) silently skips each resource without a URL and returns
exactly the names of the resources it downloaded — those with a URL — in the
input list's order. -/
theorem download_dataset_skips_urlless (remote : Remote) (net : Net)
    (cache : FileCache) (name : String) (overwrite : Bool)
    (resources : List Resource)
    (hres : TorontoOpenDataAPI.get_dataset_resources remote name
      = .ok (some resources))
    (hnet : ∀ u, net u = .ok ()) :
    (TorontoOpenData.download_dataset remote net cache name overwrite).result
      = .ok ((resources.filter (fun r => r.url.isSome)).map (fun r => r.name)) := by
  have key : ∀ (rs : List Resource) (c : FileCache),
      (FileCache.download_dataset c net name rs overwrite).result
        = .ok ((rs.filter (fun r => r.url.isSome)).map (fun r => r.name)) := by
    intro rs
    induction rs with
    | nil => intro c; rfl
    | cons r rest ih =>
      intro c
      cases hu : r.url with
      | none => simp [FileCache.download_dataset, hu, ih c]
      | some u =>
        have hp : (c.download_file net name r.name u overwrite).path
            = .ok (cache_path c.root name r.name) := by
          unfold FileCache.download_file
          split
          · rfl
          · rw [hnet u]
        simp [FileCache.download_dataset, hu, hp, ih]
  simp [TorontoOpenData.download_dataset, hres, key resources cache]

/-- Witness for C6 at the spec's §8 scenario dataset: the url-less
`"2023.pdf"` is skipped and only `"2023.csv"` is reported. -/
theorem download_dataset_skips_urlless_witness :
    (TorontoOpenData.download_dataset budgetRemote okNet emptyCache "budget"
        false).result = .ok ["2023.csv"] :=
  (download_dataset_skips_urlless budgetRemote okNet emptyCache "budget" false
    budgetResources rfl (fun _ => rfl)).trans (by decide)
